import Mathlib

/-!
Shallow embedding of `lm_eval/models/optimum_habana_lm.py` (the Optimum
Habana model wrapper for the LM evaluation harness), together with proofs
of the specified properties of its bucketing scheme, forward-pass padding,
configuration setup and tokenizer normalisation.

Conventions: Python lists become `List`, `None`-able values become
`Option`, operations that can raise (`IndexError`, `AssertionError`,
`TypeError`) return `Option`/`Except`, machine integers are `Nat`/`Int`
(no overflow is possible in the modelled code paths), and external
framework calls (the model forward pass, `tokenizer.decode`,
`tokenizer.encode`) are abstract function parameters.
-/

namespace OptimumHabana

/-- `OptimumHabanaLM.find_bucket`: `[b for b in self.buckets if b >= length][0]`.
Indexing `[0]` on an empty filter result raises `IndexError`, modelled as `none`. -/
def find_bucket (buckets : List Nat) (length : Nat) : Option Nat :=
  (buckets.filter (fun b => decide (length ≤ b))).head?

/-- Constructor line `self.buckets = sorted(args.buckets)`: Python `sorted`
sorts ascending (for a list of integers the result is the unique ascending
reordering, so stable insertion sort is an exact model). -/
def stored_buckets (args_buckets : List Nat) : List Nat :=
  args_buckets.insertionSort (· ≤ ·)

/-- `OptimumHabanaLM.max_length` property: `self.buckets[-1]`.
Indexing `[-1]` on an empty list raises `IndexError`, modelled as `none`. -/
def max_length (buckets : List Nat) : Option Nat :=
  buckets.getLast?

/-- Torch dtypes occurring in `_model_call`. -/
inductive DType where
  | float32
  | bfloat16
  | float
  deriving DecidableEq

/-- A logits tensor of shape `(bs, seq, vocab)`: per-batch-row lists of
per-position vocabulary rows (entries abstract), plus the tensor dtype. -/
structure Logits where
  data : List (List (List Int))
  dtype : DType
  deriving DecidableEq

/-- The generation-config flags read by `_model_call`. -/
structure CallFlags where
  static_shapes : Bool
  use_cache : Bool
  reuse_cache : Bool
  deriving DecidableEq

/-- `OptimumHabanaLM._model_call`.  The underlying forward pass is the
abstract parameter `model`; `pad_token_id` is `self._model.config.pad_token_id`.
Returns the sizes passed to `allocate_kv_cache` (`none` when no cache is
allocated by this layer) together with the logits; `none` overall when
`find_bucket` raises `IndexError`. -/
def model_call (buckets : List Nat) (cfg : CallFlags) (pad_token_id : Int)
    (model : List (List Int) → Logits) (inps : List (List Int)) :
    Option (Option (Nat × Nat × Nat) × Logits) :=
  let bs := inps.length
  let seq_length := (inps.head?.getD []).length
  if cfg.static_shapes then
    match find_bucket buckets seq_length with
    | none => none
    | some bucket_length =>
      let alloc := if cfg.use_cache && cfg.reuse_cache then
          some (bs, bucket_length + 1, bucket_length) else none
      let padding_length := bucket_length - seq_length
      let padded := inps.map (fun row => row ++ List.replicate padding_length pad_token_id)
      let logits := model padded
      let logits :=
        if cfg.static_shapes ∧ padding_length > 0 then
          { logits with data := logits.data.map (fun row => row.take (row.length - padding_length)) }
        else logits
      some (alloc, { logits with dtype := DType.float32 })
  else
    some (none, { model inps with dtype := DType.float32 })

/-- The flat `Args` configuration record of the source, plus the three
environment-derived fields `local_rank`, `world_size`, `global_rank` that
`setup_distributed` creates at startup.  The float-valued option
`penalty_alpha` is only carried around, never computed with, so its values
are modelled opaquely as integers. -/
structure Args where
  device : String
  model_name_or_path : String
  bf16 : Bool
  max_new_tokens : Nat
  max_input_tokens : Nat
  batch_size : Nat
  warmup : Nat
  n_iterations : Nat
  reuse_cache : Bool
  use_kv_cache : Bool
  use_hpu_graphs : Bool
  attn_softmax_bf16 : Bool
  limit_hpu_graphs : Bool
  do_sample : Bool
  torch_compile : Bool
  bucket_internal : Bool
  bucket_size : Int
  trust_remote_code : Bool
  num_beams : Nat
  bad_words : Option (List String)
  force_words : Option (List String)
  token : Option String
  top_k : Option Nat
  num_return_sequences : Nat
  trim_logits : Bool
  penalty_alpha : Option Int
  reduce_recompile : Bool
  use_flash_attention : Bool
  flash_attention_recompute : Bool
  flash_attention_causal_mask : Bool
  flash_attention_fast_softmax : Bool
  model_revision : String
  buckets : List Nat
  local_rank : Nat
  world_size : Nat
  global_rank : Nat
  deriving DecidableEq

/-- The class attribute defaults of `Args` in the source (the three
environment-derived fields do not exist before `setup_distributed`; they are
defaulted to 0 here, the value `int(os.getenv(..., "0"))` yields when the
variable is unset). -/
def Args.defaults : Args where
  device := "hpu"
  model_name_or_path := ""
  bf16 := true
  max_new_tokens := 100
  max_input_tokens := 0
  batch_size := 1
  warmup := 0
  n_iterations := 5
  reuse_cache := true
  use_kv_cache := true
  use_hpu_graphs := true
  attn_softmax_bf16 := true
  limit_hpu_graphs := true
  do_sample := true
  torch_compile := false
  bucket_internal := true
  bucket_size := 128
  trust_remote_code := true
  num_beams := 1
  bad_words := none
  force_words := none
  token := none
  top_k := none
  num_return_sequences := 1
  trim_logits := true
  penalty_alpha := none
  reduce_recompile := false
  use_flash_attention := true
  flash_attention_recompute := false
  flash_attention_causal_mask := false
  flash_attention_fast_softmax := false
  model_revision := "main"
  buckets := [16, 32, 64, 128, 189, 284, 384]
  local_rank := 0
  world_size := 0
  global_rank := 0

/-- The process environment read by `setup_distributed`: the integer values
of `LOCAL_RANK`, `WORLD_SIZE` and `RANK` (each defaulting to 0 when unset). -/
structure Env where
  local_rank : Nat
  world_size : Nat
  global_rank : Nat
  deriving DecidableEq

/-- `setup_distributed`: populates the three environment-derived fields. -/
def setup_distributed (env : Env) (args : Args) : Args :=
  { args with
    local_rank := env.local_rank
    world_size := env.world_size
    global_rank := env.global_rank }

/-- Python's `needle in haystack` substring test. -/
def str_contains (haystack needle : String) : Bool :=
  (List.range (haystack.toList.length + 1)).any
    (fun i => needle.toList.isPrefixOf (haystack.toList.drop i))

/-- `exclude_hpu_graph_configs`: whether the batch-size-1 HPU-graph limit
exclusion applies. -/
def exclude_hpu_graph_configs (args : Args) : Bool :=
  if args.batch_size = 1 ∧ args.limit_hpu_graphs = true then
    if str_contains args.model_name_or_path "falcon-180B" = true ∨
        str_contains args.model_name_or_path "falcon-180b" = true then false
    else if (args.world_size = 2 ∨ args.world_size = 4 ∨ args.world_size = 8) ∧
        4096 ≤ args.max_input_tokens ∧ 128 ≤ args.max_new_tokens then false
    else true
  else false

/-- The effect of `initialize_model` on the `args` record: `setup_distributed`
writes the three environment-derived fields, the `exclude_hpu_graph_configs`
check may force `limit_hpu_graphs` off, and the dtype fallback (`not
use_deepspeed and not bf16`) forces `attn_softmax_bf16` off.  All other steps
(`setup_env`, `setup_device`, model, tokenizer and generation-config
construction) read `args` but never write it. -/
def initialize_model_args (env : Env) (args : Args) : Args :=
  let args := setup_distributed env args
  let args := if exclude_hpu_graph_configs args = true then
      { args with limit_hpu_graphs := false } else args
  let use_deepspeed := 0 < args.world_size
  if use_deepspeed ∨ args.bf16 = true then args
  else { args with attn_softmax_bf16 := false }

/-- The fields of the generation config that `setup_generation_config`
assigns.  Fields inherited unchanged from the deep copy of
`model.generation_config` are not read by any modelled code path and are
omitted from the record. -/
structure GenerationConfig where
  max_new_tokens : Nat
  use_cache : Bool
  static_shapes : Bool
  bucket_size : Int
  bucket_internal : Bool
  do_sample : Bool
  num_beams : Nat
  top_k : Option Nat
  penalty_alpha : Option Int
  bad_words_ids : Option (List (List Int))
  force_words_ids : Option (List (List Int))
  num_return_sequences : Nat
  trim_logits : Bool
  attn_softmax_bf16 : Bool
  limit_hpu_graphs : Bool
  reuse_cache : Bool
  reduce_recompile : Bool
  use_flash_attention : Bool
  flash_attention_recompute : Bool
  flash_attention_causal_mask : Bool
  flash_attention_fast_softmax : Bool
  trust_remote_code : Bool
  valid_sequence_lengths : Option (List Nat)
  deriving DecidableEq

/-- `setup_generation_config`: overlays `args` onto the model's generation
config.  `is_optimized` is `model_is_optimized(model.config)`; `encode` is
`tokenizer.encode`.  The `assert generation_config.bucket_size > 0` under
`reduce_recompile` raises `AssertionError`, modelled as `Except.error`
(fields assigned after the assertion are all plain copies from `args`, so
building the whole record before the check is observationally equal). -/
def setup_generation_config (args : Args) (is_optimized : Bool)
    (encode : String → List Int) : Except String GenerationConfig :=
  let bad_words_ids := args.bad_words.map (fun ws => ws.map encode)
  let force_words_ids := args.force_words.map (fun ws => ws.map encode)
  let generation_config : GenerationConfig := {
    max_new_tokens := args.max_new_tokens
    use_cache := args.use_kv_cache
    static_shapes := is_optimized
    bucket_size := if is_optimized then args.bucket_size else -1
    bucket_internal := args.bucket_internal
    do_sample := args.do_sample
    num_beams := args.num_beams
    top_k := args.top_k
    penalty_alpha := args.penalty_alpha
    bad_words_ids := bad_words_ids
    force_words_ids := force_words_ids
    num_return_sequences := args.num_return_sequences
    trim_logits := args.trim_logits
    attn_softmax_bf16 := args.attn_softmax_bf16
    limit_hpu_graphs := args.limit_hpu_graphs
    reuse_cache := args.reuse_cache
    reduce_recompile := args.reduce_recompile
    use_flash_attention := args.use_flash_attention
    flash_attention_recompute := args.flash_attention_recompute
    flash_attention_causal_mask := args.flash_attention_causal_mask
    flash_attention_fast_softmax := args.flash_attention_fast_softmax
    trust_remote_code := args.trust_remote_code
    valid_sequence_lengths := none }
  if generation_config.reduce_recompile = true ∧ ¬(0 < generation_config.bucket_size) then
    Except.error "AssertionError"
  else
    Except.ok generation_config

/-- A concrete shape-preserving stand-in forward pass used in witnesses:
every input position gets a one-entry vocabulary row, in bfloat16. -/
def toy_model (x : List (List Int)) : Logits :=
  ⟨x.map (fun row => row.map (fun _ => [0])), DType.bfloat16⟩

/-- A HuggingFace token-id value: Python lets `eos_token_id` (and, after the
persimmon assignment, `pad_token_id`) be an `int` or a `list` of ints. -/
inductive TokId where
  | one (i : Int)
  | many (l : List Int)
  deriving DecidableEq

/-- The tokenizer attributes read and written by `setup_tokenizer`. -/
structure Tokenizer where
  padding_side : String
  pad_token : Option String
  eos_token : Option String
  bos_token : Option String
  pad_token_id : Option TokId
  eos_token_id : Option TokId
  bos_token_id : Option TokId
  deriving DecidableEq

/-- The model attributes read and written by `setup_tokenizer`
(`model.config.model_type`, `model.config.is_encoder_decoder`, and the
special-token ids of `model.generation_config`). -/
structure ModelCfg where
  model_type : String
  is_encoder_decoder : Bool
  gen_pad_token_id : Option TokId
  gen_eos_token_id : Option TokId
  gen_bos_token_id : Option TokId
  deriving DecidableEq

/-- `tokenizer.decode` applied to a possibly-`None` id: decoding an `int` or a
`list` yields a string (the abstract parameter `decode`); decoding `None`
raises `TypeError`. -/
def decode_opt (decode : TokId → String) : Option TokId → Except String String
  | none => Except.error "TypeError"
  | some t => Except.ok (decode t)

/-- The `model_type == "llama"` branch of `setup_tokenizer` (source lines
151-165): replace a `None` generation pad id by the eos id (or its first
element when it is a list; `[0]` on an empty list raises `IndexError`), copy
the special-token ids onto the tokenizer, and re-decode the token strings. -/
def llama_fixups (decode : TokId → String) (tok : Tokenizer) (model : ModelCfg) :
    Except String (Tokenizer × ModelCfg) := do
  let model ←
    if model.gen_pad_token_id = none then
      match model.gen_eos_token_id with
      | some (TokId.one i) => pure { model with gen_pad_token_id := some (TokId.one i) }
      | some (TokId.many []) => Except.error "IndexError"
      | some (TokId.many (h :: _)) => pure { model with gen_pad_token_id := some (TokId.one h) }
      | none => pure model
    else pure model
  let tok := { tok with bos_token_id := model.gen_bos_token_id }
  let tok ←
    match model.gen_eos_token_id with
    | some (TokId.one i) => pure { tok with eos_token_id := some (TokId.one i) }
    | some (TokId.many []) => Except.error "IndexError"
    | some (TokId.many (h :: _)) => pure { tok with eos_token_id := some (TokId.one h) }
    | none => pure tok
  let tok := { tok with pad_token_id := model.gen_pad_token_id }
  let pt ← decode_opt decode tok.pad_token_id
  let tok := { tok with pad_token := some pt }
  let et ← decode_opt decode tok.eos_token_id
  let tok := { tok with eos_token := some et }
  let bt ← decode_opt decode tok.bos_token_id
  let tok := { tok with bos_token := some bt }
  pure (tok, model)

/-- The `model_type == "persimmon"` branch of `setup_tokenizer` (source lines
166-173). -/
def persimmon_fixups (decode : TokId → String) (tok : Tokenizer) (model : ModelCfg) :
    Except String (Tokenizer × ModelCfg) := do
  let model := { model with gen_pad_token_id := model.gen_eos_token_id }
  let tok := { tok with
    bos_token_id := model.gen_bos_token_id
    eos_token_id := model.gen_eos_token_id
    pad_token_id := model.gen_pad_token_id }
  let pt ← decode_opt decode tok.pad_token_id
  let tok := { tok with pad_token := some pt }
  let et ← decode_opt decode tok.eos_token_id
  let tok := { tok with eos_token := some et }
  let bt ← decode_opt decode tok.bos_token_id
  let tok := { tok with bos_token := some bt }
  pure (tok, model)

/-- The MiniCPM3 hack of `setup_tokenizer` (source lines 176-177): a list eos
id is replaced by its last element (`[-1]` on an empty list raises
`IndexError`). -/
def minicpm3_fixup (model : ModelCfg) : Except String ModelCfg :=
  if model.model_type = "minicpm3" then
    match model.gen_eos_token_id with
    | some (TokId.many l) =>
      match l.getLast? with
      | none => Except.error "IndexError"
      | some i => pure { model with gen_eos_token_id := some (TokId.one i) }
    | _ => pure model
  else pure model

/-- The generic PAD fallback of `setup_tokenizer` (source lines 180-182):
models like GPT2 have no PAD token, so a missing one is replaced by the EOS
token. -/
def pad_fallback (tok : Tokenizer) (model : ModelCfg) : Tokenizer × ModelCfg :=
  if tok.pad_token = none then
    ({ tok with pad_token := tok.eos_token },
     { model with gen_pad_token_id := model.gen_eos_token_id })
  else (tok, model)

/-- `setup_tokenizer` (without the `AutoTokenizer.from_pretrained` call, whose
result is the `tok` argument): left padding for decoder-only models, the
per-family fixups, and the generic PAD fallback. -/
def setup_tokenizer (decode : TokId → String) (tok : Tokenizer) (model : ModelCfg) :
    Except String (Tokenizer × ModelCfg) :=
  let tok := if model.is_encoder_decoder = false then
      { tok with padding_side := "left" } else tok
  (if model.model_type = "llama" then
      llama_fixups decode tok model else pure (tok, model)) >>= fun x =>
  (if x.2.model_type = "persimmon" then
      persimmon_fixups decode x.1 x.2 else pure x) >>= fun y =>
  minicpm3_fixup y.2 >>= fun m3 =>
  pure (pad_fallback y.1 m3)

/-- A successful `find_bucket` result is a bucket and at least the length. -/
theorem find_bucket_eq_some_spec {buckets : List Nat} {L m : Nat}
    (h : find_bucket buckets L = some m) : m ∈ buckets ∧ L ≤ m := by
  have hmem : m ∈ buckets.filter (fun b => decide (L ≤ b)) := by
    unfold find_bucket at h
    exact List.mem_of_mem_head? h
  have h2 := List.mem_filter.mp hmem
  exact ⟨h2.1, by simpa using h2.2⟩

/-- `find_bucket` succeeds when some bucket is at least the length. -/
theorem find_bucket_exists_some {buckets : List Nat} {L : Nat}
    (hex : ∃ b ∈ buckets, L ≤ b) : ∃ m, find_bucket buckets L = some m := by
  obtain ⟨b0, hb0, hle⟩ := hex
  have hmem : b0 ∈ buckets.filter (fun b => decide (L ≤ b)) :=
    List.mem_filter.mpr ⟨hb0, by simpa using hle⟩
  cases hf : buckets.filter (fun b => decide (L ≤ b)) with
  | nil => rw [hf] at hmem; simp at hmem
  | cons m rest => exact ⟨m, by simp [find_bucket, hf]⟩

/-- In an ascending list every element is at most the last one. -/
theorem le_getLast_of_sorted :
    ∀ (l : List Nat), l.Sorted (· ≤ ·) → ∀ (hne : l ≠ []) (x : Nat), x ∈ l → x ≤ l.getLast hne := by
  intro l
  induction l with
  | nil => intro _ hne; exact absurd rfl hne
  | cons a t ih =>
    intro hs hne x hx
    rcases List.sorted_cons.mp hs with ⟨ha, hts⟩
    rcases eq_or_ne t [] with ht | ht
    · subst ht
      simp only [List.mem_singleton] at hx
      simp [hx, List.getLast]
    · rw [List.getLast_cons ht]
      rcases List.mem_cons.mp hx with h | h
      · exact h ▸ ha _ (List.getLast_mem ht)
      · exact ih hts ht x h

/-- C1: on an ascending bucket list, whenever some bucket is at least the
requested length, `find_bucket` returns the minimal bucket that is `≥ length`. -/
theorem find_bucket_returns_minimal (buckets : List Nat) (L : Nat)
    (hsort : buckets.Sorted (· ≤ ·)) (hex : ∃ b ∈ buckets, L ≤ b) :
    ∃ m, find_bucket buckets L = some m ∧ m ∈ buckets ∧ L ≤ m ∧
      ∀ b ∈ buckets, L ≤ b → m ≤ b := by
  obtain ⟨b0, hb0m, hb0le⟩ := hex
  have hmemf : b0 ∈ buckets.filter (fun b => decide (L ≤ b)) :=
    List.mem_filter.mpr ⟨hb0m, by simpa using hb0le⟩
  have hsf : (buckets.filter (fun b => decide (L ≤ b))).Sorted (· ≤ ·) :=
    hsort.filter _
  cases hf : buckets.filter (fun b => decide (L ≤ b)) with
  | nil => rw [hf] at hmemf; simp at hmemf
  | cons m rest =>
    rw [hf] at hsf
    have hm : m ∈ buckets.filter (fun b => decide (L ≤ b)) := by
      rw [hf]; exact List.mem_cons_self m rest
    have hm' := List.mem_filter.mp hm
    refine ⟨m, by simp [find_bucket, hf], hm'.1, by simpa using hm'.2, ?_⟩
    intro b hbm hble
    have hbf : b ∈ buckets.filter (fun b => decide (L ≤ b)) :=
      List.mem_filter.mpr ⟨hbm, by simpa using hble⟩
    rw [hf] at hbf
    rcases List.mem_cons.mp hbf with h | h
    · exact h ▸ le_refl m
    · exact (List.sorted_cons.mp hsf).1 b h

/-- C1 witness: with buckets `[16, 32, 64]` and length `20`, `find_bucket`
returns `32`, the minimal bucket `≥ 20`. -/
theorem find_bucket_returns_minimal_witness :
    ∃ m, find_bucket [16, 32, 64] 20 = some m ∧ m ∈ [16, 32, 64] ∧ 20 ≤ m ∧
      ∀ b ∈ [16, 32, 64], 20 ≤ b → m ≤ b :=
  find_bucket_returns_minimal [16, 32, 64] 20 (by decide) ⟨32, by decide, by decide⟩

/-- C2: `find_bucket` fails (IndexError, i.e. `none`) whenever the requested
length strictly exceeds the largest bucket, and succeeds whenever some bucket
is at least the length. -/
theorem find_bucket_fail_or_succeed (buckets : List Nat) (L : Nat)
    (hne : buckets ≠ []) (hsort : buckets.Sorted (· ≤ ·)) :
    (buckets.getLast hne < L → find_bucket buckets L = none) ∧
    ((∃ b ∈ buckets, L ≤ b) → (find_bucket buckets L).isSome = true) := by
  constructor
  · intro hgt
    have hempty : buckets.filter (fun b => decide (L ≤ b)) = [] := by
      apply List.eq_nil_iff_forall_not_mem.mpr
      intro x hx
      have hx' := List.mem_filter.mp hx
      have hxle : L ≤ x := by simpa using hx'.2
      have : x ≤ buckets.getLast hne := le_getLast_of_sorted buckets hsort hne x hx'.1
      omega
    simp [find_bucket, hempty]
  · intro hex
    obtain ⟨m, hm, _⟩ := find_bucket_returns_minimal buckets L hsort hex
    simp [hm]

/-- C2 witness: with buckets `[16, 32, 64]`, length `65` exceeds the largest
bucket and `find_bucket` fails, while length `64` succeeds. -/
theorem find_bucket_fail_or_succeed_witness :
    (List.getLast [16, 32, 64] (by decide) < 65 → find_bucket [16, 32, 64] 65 = none) ∧
    ((∃ b ∈ [16, 32, 64], 65 ≤ b) → (find_bucket [16, 32, 64] 65).isSome = true) :=
  find_bucket_fail_or_succeed [16, 32, 64] 65 (by decide) (by decide)

/-- C5: the buckets stored by the constructor are ascending, and `max_length`
returns the maximum element of the supplied bucket list. -/
theorem stored_buckets_sorted_and_max (args_buckets : List Nat)
    (h : args_buckets ≠ []) :
    (stored_buckets args_buckets).Sorted (· ≤ ·) ∧
    ∃ M, max_length (stored_buckets args_buckets) = some M ∧ M ∈ args_buckets ∧
      ∀ x ∈ args_buckets, x ≤ M := by
  have hsorted : (stored_buckets args_buckets).Sorted (· ≤ ·) :=
    List.sorted_insertionSort _ _
  have hne : stored_buckets args_buckets ≠ [] := by
    intro hcon
    have := (List.perm_insertionSort (· ≤ ·) args_buckets).length_eq
    rw [stored_buckets] at hcon
    rw [hcon] at this
    exact h (List.eq_nil_of_length_eq_zero this.symm)
  refine ⟨hsorted, (stored_buckets args_buckets).getLast hne, ?_, ?_, ?_⟩
  · simp [max_length, List.getLast?_eq_getLast_of_ne_nil hne]
  · have : (stored_buckets args_buckets).getLast hne ∈ stored_buckets args_buckets :=
      List.getLast_mem hne
    exact (List.mem_insertionSort _).mp this
  · intro x hx
    exact le_getLast_of_sorted _ hsorted hne x ((List.mem_insertionSort _).mpr hx)

/-- C5 witness: for the default bucket list in reverse order, the stored
buckets are ascending and the maximum is `384`. -/
theorem stored_buckets_sorted_and_max_witness :
    (stored_buckets [384, 284, 189, 128, 64, 32, 16]).Sorted (· ≤ ·) ∧
    ∃ M, max_length (stored_buckets [384, 284, 189, 128, 64, 32, 16]) = some M ∧
      M ∈ [384, 284, 189, 128, 64, 32, 16] ∧
      ∀ x ∈ [384, 284, 189, 128, 64, 32, 16], x ≤ M :=
  stored_buckets_sorted_and_max [384, 284, 189, 128, 64, 32, 16] (by decide)

/-- `toy_model` preserves per-row sequence lengths. -/
theorem toy_model_shape : ∀ x, (toy_model x).data.map List.length = x.map List.length := by
  intro x
  simp [toy_model, List.map_map, Function.comp]

/-- C3: for a rectangular batch (every row of length `L`) with some bucket
`≥ L`, and a forward pass that preserves per-row sequence lengths,
`_model_call` succeeds and returns logits whose sequence dimension equals the
original unpadded `L` on every batch row and whose dtype is `float32` — with
static-shape mode either on or off, including the exact-bucket edge case. -/
theorem model_call_preserves_length (buckets : List Nat) (cfg : CallFlags)
    (pad_token_id : Int) (model : List (List Int) → Logits)
    (inps : List (List Int)) (L : Nat)
    (hne : inps ≠ [])
    (hL : ∀ row ∈ inps, row.length = L)
    (hex : ∃ b ∈ buckets, L ≤ b)
    (hmodel : ∀ x, (model x).data.map List.length = x.map List.length) :
    ∃ r, model_call buckets cfg pad_token_id model inps = some r ∧
      r.2.data.map List.length = List.replicate inps.length L ∧
      r.2.dtype = DType.float32 := by
  have hseq : (inps.head?.getD []).length = L := by
    cases inps with
    | nil => exact absurd rfl hne
    | cons r t => exact hL r (List.mem_cons_self r t)
  have hinlen : inps.map List.length = List.replicate inps.length L := by
    calc inps.map List.length = inps.map (fun _ => L) := List.map_congr_left hL
      _ = List.replicate inps.length L := List.map_const' inps L
  by_cases hst : cfg.static_shapes = true
  · obtain ⟨m, hm⟩ := find_bucket_exists_some hex
    have hLm : L ≤ m := (find_bucket_eq_some_spec hm).2
    have hpadlen : (inps.map (fun row => row ++ List.replicate (m - L) pad_token_id)).map
        List.length = List.replicate inps.length m := by
      rw [List.map_map]
      calc inps.map (List.length ∘ fun row => row ++ List.replicate (m - L) pad_token_id)
          = inps.map (fun _ => m) := by
            apply List.map_congr_left
            intro row hrow
            simp [Function.comp, hL row hrow]
            omega
        _ = List.replicate inps.length m := List.map_const' inps m
    rcases Nat.eq_or_lt_of_le hLm with hEq | hLt
    · -- exact-bucket edge case: padding_length = 0, no stripping
      subst hEq
      refine ⟨((if cfg.use_cache && cfg.reuse_cache then
          some (inps.length, L + 1, L) else none),
          { model inps with dtype := DType.float32 }), ?_, ?_, rfl⟩
      · simp [model_call, hst, hseq, hm]
      · show (model inps).data.map List.length = _
        rw [hmodel, hinlen]
    · -- strict padding: positions are stripped back off
      have hpos : 0 < m - L := by omega
      refine ⟨((if cfg.use_cache && cfg.reuse_cache then
          some (inps.length, m + 1, m) else none),
          { data := (model (inps.map
              (fun row => row ++ List.replicate (m - L) pad_token_id))).data.map
                (fun row => row.take (row.length - (m - L))),
            dtype := DType.float32 }), ?_, ?_, rfl⟩
      · simp [model_call, hst, hseq, hm, hpos, Nat.pos_iff_ne_zero]
      · show ((model _).data.map (fun row => row.take (row.length - (m - L)))).map
            List.length = _
        have hdl : (model (inps.map
            (fun row => row ++ List.replicate (m - L) pad_token_id))).data.map
              List.length = List.replicate inps.length m := by
          rw [hmodel]; exact hpadlen
        have hrowlen : ∀ r ∈ (model (inps.map
            (fun row => row ++ List.replicate (m - L) pad_token_id))).data,
            r.length = m := by
          intro r hr
          have : r.length ∈ (model (inps.map
              (fun row => row ++ List.replicate (m - L) pad_token_id))).data.map
                List.length := List.mem_map_of_mem List.length hr
          rw [hdl] at this
          exact List.eq_of_mem_replicate this
        have hlen : (model (inps.map
            (fun row => row ++ List.replicate (m - L) pad_token_id))).data.length =
            inps.length := by
          have := congrArg List.length hdl
          simpa using this
        rw [List.map_map]
        calc (model (inps.map (fun row => row ++ List.replicate (m - L) pad_token_id))).data.map
              (List.length ∘ fun row => row.take (row.length - (m - L)))
            = (model (inps.map (fun row => row ++ List.replicate (m - L) pad_token_id))).data.map
              (fun _ => L) := by
              apply List.map_congr_left
              intro r hr
              simp [Function.comp, hrowlen r hr]
              omega
          _ = List.replicate inps.length L := by rw [List.map_const', hlen]
  · -- static shapes off: the model output is only cast to float32
    refine ⟨(none, { model inps with dtype := DType.float32 }), ?_, ?_, rfl⟩
    · simp [model_call, hst]
    · show (model inps).data.map List.length = _
      rw [hmodel, hinlen]

/-- C3 witness: batch `[[1,2,3,4]]` with bucket `4` (the exact-bucket edge
case) in static-shape mode: logits of length 4 per row, dtype float32. -/
theorem model_call_preserves_length_witness :
    ∃ r, model_call [4] ⟨true, true, true⟩ 7 toy_model [[1, 2, 3, 4]] = some r ∧
      r.2.data.map List.length = List.replicate 1 4 ∧
      r.2.dtype = DType.float32 :=
  model_call_preserves_length [4] ⟨true, true, true⟩ 7 toy_model [[1, 2, 3, 4]] 4
    (by decide) (by decide) ⟨4, by decide, by decide⟩ toy_model_shape

/-- C7: in static-shape mode with `use_cache` and `reuse_cache` both on, the
layer pre-allocates a KV cache with sizes `(bs, bucket_length + 1,
bucket_length)` before invoking the model; if static-shape mode is off or
either flag is off, no KV cache is allocated by this layer. -/
theorem model_call_kv_cache (buckets : List Nat) (cfg : CallFlags)
    (pad_token_id : Int) (model : List (List Int) → Logits)
    (inps : List (List Int)) :
    (∀ b, cfg.static_shapes = true → cfg.use_cache = true → cfg.reuse_cache = true →
      find_bucket buckets (inps.head?.getD []).length = some b →
      ∃ r, model_call buckets cfg pad_token_id model inps = some r ∧
        r.1 = some (inps.length, b + 1, b)) ∧
    ((cfg.static_shapes = false ∨ cfg.use_cache = false ∨ cfg.reuse_cache = false) →
      ∀ r, model_call buckets cfg pad_token_id model inps = some r → r.1 = none) := by
  constructor
  · intro b h1 h2 h3 h4
    cases hcall : model_call buckets cfg pad_token_id model inps with
    | none => simp [model_call, h1, h4] at hcall
    | some r =>
      refine ⟨r, rfl, ?_⟩
      simp [model_call, h1, h2, h3, h4] at hcall
      rw [← hcall]
  · intro hdisj r hr
    rcases hdisj with h | h | h
    · simp [model_call, h] at hr
      rw [← hr]
    · by_cases hst : cfg.static_shapes = true
      · cases hfb : find_bucket buckets (inps.head?.getD []).length with
        | none => simp [model_call, hst, hfb] at hr
        | some b =>
          simp [model_call, hst, hfb, h] at hr
          rw [← hr]
      · simp only [Bool.not_eq_true] at hst
        simp [model_call, hst] at hr
        rw [← hr]
    · by_cases hst : cfg.static_shapes = true
      · cases hfb : find_bucket buckets (inps.head?.getD []).length with
        | none => simp [model_call, hst, hfb] at hr
        | some b =>
          simp [model_call, hst, hfb, h] at hr
          rw [← hr]
      · simp only [Bool.not_eq_true] at hst
        simp [model_call, hst] at hr
        rw [← hr]

/-- C7 witness: with all three flags on, batch `[[1,2,3]]` and bucket `4`, a
cache of sizes `(1, 5, 4)` is requested; turning `reuse_cache` off yields no
allocation. -/
theorem model_call_kv_cache_witness :
    (∃ r, model_call [4] ⟨true, true, true⟩ 7 toy_model [[1, 2, 3]] = some r ∧
      r.1 = some (1, 5, 4)) ∧
    (∀ r, model_call [4] ⟨true, true, false⟩ 7 toy_model [[1, 2, 3]] = some r →
      r.1 = none) :=
  ⟨(model_call_kv_cache [4] ⟨true, true, true⟩ 7 toy_model [[1, 2, 3]]).1
      4 rfl rfl rfl (by decide),
   (model_call_kv_cache [4] ⟨true, true, false⟩ 7 toy_model [[1, 2, 3]]).2
      (Or.inr (Or.inr rfl))⟩

/-- C9: with static-shape mode off, `_model_call` selects no bucket, allocates
no KV cache, passes the input tensor to the model unchanged, and only casts
the logits to float32 without slicing them. -/
theorem model_call_non_static (buckets : List Nat) (cfg : CallFlags)
    (pad_token_id : Int) (model : List (List Int) → Logits)
    (inps : List (List Int)) (h : cfg.static_shapes = false) :
    model_call buckets cfg pad_token_id model inps =
      some (none, { data := (model inps).data, dtype := DType.float32 }) := by
  simp [model_call, h]

/-- C9 witness: static-shape mode off on a concrete batch — the result is the
unsliced toy-model output cast to float32, with no allocation. -/
theorem model_call_non_static_witness :
    model_call [4] ⟨false, true, true⟩ 7 toy_model [[1, 2, 3]] =
      some (none, { data := (toy_model [[1, 2, 3]]).data, dtype := DType.float32 }) :=
  model_call_non_static [4] ⟨false, true, true⟩ 7 toy_model [[1, 2, 3]] rfl

/-- Inversion for a successful `Except` bind. -/
theorem except_bind_ok {α β : Type} {e : Except String α} {f : α → Except String β} {b : β}
    (h : (e >>= f) = Except.ok b) : ∃ a, e = Except.ok a ∧ f a = Except.ok b := by
  cases e with
  | error err => simp [Bind.bind, Except.bind] at h
  | ok a => exact ⟨a, rfl, by simpa [Bind.bind, Except.bind] using h⟩

/-- What a successful llama branch guarantees: the model type is untouched,
the tokenizer ends with a decoded (present) PAD token, and a `None`
generation pad id has been replaced by the eos id (or its first element for
a list eos id). -/
theorem llama_fixups_spec (decode : TokId → String) (tok : Tokenizer) (model : ModelCfg)
    (ta : Tokenizer) (ma : ModelCfg)
    (h : llama_fixups decode tok model = Except.ok (ta, ma)) :
    ma.model_type = model.model_type ∧ (∃ s, ta.pad_token = some s) ∧
    (model.gen_pad_token_id = none →
      (∃ i, model.gen_eos_token_id = some (TokId.one i) ∧
        ma.gen_pad_token_id = some (TokId.one i)) ∨
      (∃ i l, model.gen_eos_token_id = some (TokId.many (i :: l)) ∧
        ma.gen_pad_token_id = some (TokId.one i))) := by
  rcases hp : model.gen_pad_token_id with _ | p
  · rcases he : model.gen_eos_token_id with _ | te
    · simp [llama_fixups, hp, he, decode_opt, Bind.bind, Except.bind, pure, Except.pure] at h
    · rcases te with i | l
      · rcases hb : model.gen_bos_token_id with _ | b
        · simp [llama_fixups, hp, he, hb, decode_opt,
            Bind.bind, Except.bind, pure, Except.pure] at h
        · simp [llama_fixups, hp, he, hb, decode_opt,
            Bind.bind, Except.bind, pure, Except.pure] at h
          obtain ⟨h1, h2⟩ := h
          subst h1; subst h2
          refine ⟨rfl, ⟨decode (TokId.one i), rfl⟩, fun _ => Or.inl ⟨i, rfl, rfl⟩⟩
      · rcases l with _ | ⟨h0, t0⟩
        · simp [llama_fixups, hp, he, decode_opt,
            Bind.bind, Except.bind, pure, Except.pure] at h
        · rcases hb : model.gen_bos_token_id with _ | b
          · simp [llama_fixups, hp, he, hb, decode_opt,
              Bind.bind, Except.bind, pure, Except.pure] at h
          · simp [llama_fixups, hp, he, hb, decode_opt,
              Bind.bind, Except.bind, pure, Except.pure] at h
            obtain ⟨h1, h2⟩ := h
            subst h1; subst h2
            refine ⟨rfl, ⟨decode (TokId.one h0), rfl⟩,
              fun _ => Or.inr ⟨h0, t0, rfl, rfl⟩⟩
  · rcases he : model.gen_eos_token_id with _ | te
    · rcases hte : tok.eos_token_id with _ | e0
      · simp [llama_fixups, hp, he, hte, decode_opt,
          Bind.bind, Except.bind, pure, Except.pure] at h
      · rcases hb : model.gen_bos_token_id with _ | b
        · simp [llama_fixups, hp, he, hte, hb, decode_opt,
            Bind.bind, Except.bind, pure, Except.pure] at h
        · simp [llama_fixups, hp, he, hte, hb, decode_opt,
            Bind.bind, Except.bind, pure, Except.pure] at h
          obtain ⟨h1, h2⟩ := h
          subst h1; subst h2
          exact ⟨rfl, ⟨decode p, rfl⟩, fun hc => by simp at hc⟩
    · rcases te with i | l
      · rcases hb : model.gen_bos_token_id with _ | b
        · simp [llama_fixups, hp, he, hb, decode_opt,
            Bind.bind, Except.bind, pure, Except.pure] at h
        · simp [llama_fixups, hp, he, hb, decode_opt,
            Bind.bind, Except.bind, pure, Except.pure] at h
          obtain ⟨h1, h2⟩ := h
          subst h1; subst h2
          exact ⟨rfl, ⟨decode p, rfl⟩, fun hc => by simp at hc⟩
      · rcases l with _ | ⟨h0, t0⟩
        · simp [llama_fixups, hp, he, decode_opt,
            Bind.bind, Except.bind, pure, Except.pure] at h
        · rcases hb : model.gen_bos_token_id with _ | b
          · simp [llama_fixups, hp, he, hb, decode_opt,
              Bind.bind, Except.bind, pure, Except.pure] at h
          · simp [llama_fixups, hp, he, hb, decode_opt,
              Bind.bind, Except.bind, pure, Except.pure] at h
            obtain ⟨h1, h2⟩ := h
            subst h1; subst h2
            exact ⟨rfl, ⟨decode p, rfl⟩, fun hc => by simp at hc⟩

/-- `minicpm3_fixup` never changes the generation pad id. -/
theorem minicpm3_fixup_pad {m m' : ModelCfg} (h : minicpm3_fixup m = Except.ok m') :
    m'.gen_pad_token_id = m.gen_pad_token_id := by
  unfold minicpm3_fixup at h
  split at h
  · split at h
    · split at h
      · cases h
      · simp [pure, Except.pure] at h
        subst h
        rfl
    · simp [pure, Except.pure] at h
      subst h
      rfl
  · simp [pure, Except.pure] at h
    subst h
    rfl

/-- If the PAD fallback leaves the pad token `None`, the eos token was `None`. -/
theorem pad_fallback_eos_of_pad_none (t : Tokenizer) (m : ModelCfg)
    (h : (pad_fallback t m).1.pad_token = none) : (pad_fallback t m).1.eos_token = none := by
  unfold pad_fallback at h ⊢
  by_cases hp : t.pad_token = none
  · simpa [hp] using h
  · rw [if_neg hp] at h
    exact absurd h hp

/-- The PAD fallback when the pad token is missing. -/
theorem pad_fallback_set (t : Tokenizer) (m : ModelCfg) (h : t.pad_token = none) :
    pad_fallback t m = ({ t with pad_token := t.eos_token },
      { m with gen_pad_token_id := m.gen_eos_token_id }) := by
  simp [pad_fallback, h]

/-- The PAD fallback when a pad token is present. -/
theorem pad_fallback_keep (t : Tokenizer) (m : ModelCfg) (h : ¬t.pad_token = none) :
    pad_fallback t m = (t, m) := by
  simp [pad_fallback, h]

/-- C8 counterexample: for a GPT2-style tokenizer whose eos token is also
missing, `setup_tokenizer` returns successfully with the pad token still
`None` — the pad token is not "never None" after the call. -/
theorem setup_tokenizer_pad_none_counterexample :
    setup_tokenizer (fun _ => "x")
        ⟨"right", none, none, none, none, none, none⟩
        ⟨"gpt2", false, none, none, none⟩ =
      Except.ok (⟨"left", none, none, none, none, none, none⟩,
        ⟨"gpt2", false, none, none, none⟩) ∧
    (⟨"left", none, none, none, none, none, none⟩ : Tokenizer).pad_token = none :=
  ⟨rfl, rfl⟩

/-- C8 amended: after a successful `setup_tokenizer`, the pad token is
non-`None` whenever the eos token is non-`None` (it can only stay `None` when
the eos token is `None` too); the run ends with the generic fallback, which,
when the pad token is missing at that point, sets it to the eos token and
sets `generation_config.pad_token_id` to its `eos_token_id`; and for llama
models a `None` generation pad id is replaced by the eos id (or by its first
element when the eos id is a list). -/
theorem setup_tokenizer_amended (decode : TokId → String) (tok : Tokenizer)
    (model : ModelCfg) (tokR : Tokenizer) (modelR : ModelCfg)
    (h : setup_tokenizer decode tok model = Except.ok (tokR, modelR)) :
    (tokR.eos_token.isSome = true → tokR.pad_token.isSome = true) ∧
    (∃ t3 m3, (tokR, modelR) = pad_fallback t3 m3 ∧
      (t3.pad_token = none →
        tokR.pad_token = t3.eos_token ∧
        modelR.gen_pad_token_id = m3.gen_eos_token_id)) ∧
    (model.model_type = "llama" → model.gen_pad_token_id = none →
      ((∃ i, model.gen_eos_token_id = some (TokId.one i) ∧
        modelR.gen_pad_token_id = some (TokId.one i)) ∨
       (∃ i l, model.gen_eos_token_id = some (TokId.many (i :: l)) ∧
        modelR.gen_pad_token_id = some (TokId.one i)))) := by
  unfold setup_tokenizer at h
  obtain ⟨a, hA, h1⟩ := except_bind_ok h
  obtain ⟨b, hB, h2⟩ := except_bind_ok h1
  obtain ⟨mc, hC, hD⟩ := except_bind_ok h2
  simp only [pure, Except.pure, Except.ok.injEq] at hD
  refine ⟨?_, ?_, ?_⟩
  · intro hse
    by_contra hnp
    have hpn : tokR.pad_token = none := Option.not_isSome_iff_eq_none.mp hnp
    have hfst : (pad_fallback b.1 mc).1 = tokR := by rw [hD]
    have hx : (pad_fallback b.1 mc).1.pad_token = none := by rw [hfst]; exact hpn
    have hy := pad_fallback_eos_of_pad_none b.1 mc hx
    rw [hfst] at hy
    rw [hy] at hse
    cases hse
  · refine ⟨b.1, mc, hD.symm, ?_⟩
    intro hpn
    rw [pad_fallback_set b.1 mc hpn, Prod.mk.injEq] at hD
    obtain ⟨hD1, hD2⟩ := hD
    constructor
    · rw [← hD1]
    · rw [← hD2]
  · intro hllama hpad
    rw [if_pos hllama] at hA
    obtain ⟨hmt, ⟨s, hps⟩, hrepl⟩ := llama_fixups_spec decode _ model a.1 a.2 hA
    have hnp : ¬a.2.model_type = "persimmon" := by
      rw [hmt, hllama]
      decide
    rw [if_neg hnp] at hB
    simp only [pure, Except.pure, Except.ok.injEq] at hB
    subst hB
    have hmcpad := minicpm3_fixup_pad hC
    have hpsome : ¬a.1.pad_token = none := by
      rw [hps]
      exact fun hcon => by cases hcon
    rw [pad_fallback_keep a.1 mc hpsome, Prod.mk.injEq] at hD
    obtain ⟨hD1, hD2⟩ := hD
    rcases hrepl hpad with ⟨i, hei, hpi⟩ | ⟨i, l, hei, hpi⟩
    · exact Or.inl ⟨i, hei, by rw [← hD2, hmcpad, hpi]⟩
    · exact Or.inr ⟨i, l, hei, by rw [← hD2, hmcpad, hpi]⟩

/-- C8 amended witness: a GPT2-style tokenizer with a missing pad token but a
present eos token; after the run the pad token equals the eos token and both
conclusions of the amended statement hold at this input. -/
theorem setup_tokenizer_amended_witness :
    ((⟨"left", some "</s>", some "</s>", none, none, some (TokId.one 2), none⟩ :
        Tokenizer).eos_token.isSome = true →
      (⟨"left", some "</s>", some "</s>", none, none, some (TokId.one 2), none⟩ :
        Tokenizer).pad_token.isSome = true) ∧
    (∃ t3 m3,
      ((⟨"left", some "</s>", some "</s>", none, none, some (TokId.one 2), none⟩ :
          Tokenizer),
        (⟨"gpt2", false, some (TokId.one 2), some (TokId.one 2), none⟩ : ModelCfg)) =
          pad_fallback t3 m3 ∧
      (t3.pad_token = none →
        (⟨"left", some "</s>", some "</s>", none, none, some (TokId.one 2), none⟩ :
          Tokenizer).pad_token = t3.eos_token ∧
        (⟨"gpt2", false, some (TokId.one 2), some (TokId.one 2), none⟩ :
          ModelCfg).gen_pad_token_id = m3.gen_eos_token_id)) ∧
    ((⟨"gpt2", false, none, some (TokId.one 2), none⟩ : ModelCfg).model_type = "llama" →
      (⟨"gpt2", false, none, some (TokId.one 2), none⟩ : ModelCfg).gen_pad_token_id = none →
      ((∃ i, (⟨"gpt2", false, none, some (TokId.one 2), none⟩ :
          ModelCfg).gen_eos_token_id = some (TokId.one i) ∧
        (⟨"gpt2", false, some (TokId.one 2), some (TokId.one 2), none⟩ :
          ModelCfg).gen_pad_token_id = some (TokId.one i)) ∨
       (∃ i l, (⟨"gpt2", false, none, some (TokId.one 2), none⟩ :
          ModelCfg).gen_eos_token_id = some (TokId.many (i :: l)) ∧
        (⟨"gpt2", false, some (TokId.one 2), some (TokId.one 2), none⟩ :
          ModelCfg).gen_pad_token_id = some (TokId.one i)))) :=
  setup_tokenizer_amended (fun _ => "x")
    ⟨"right", none, some "</s>", none, none, some (TokId.one 2), none⟩
    ⟨"gpt2", false, none, some (TokId.one 2), none⟩
    ⟨"left", some "</s>", some "</s>", none, none, some (TokId.one 2), none⟩
    ⟨"gpt2", false, some (TokId.one 2), some (TokId.one 2), none⟩
    rfl

/-- C4: `setup_generation_config` raises its assertion exactly when
`reduce_recompile` is enabled and the resulting `bucket_size`
(`args.bucket_size` when the model is optimized, `-1` otherwise) is not
positive. -/
theorem setup_generation_config_assert_iff (args : Args) (is_optimized : Bool)
    (encode : String → List Int) :
    (∃ e, setup_generation_config args is_optimized encode = Except.error e) ↔
      (args.reduce_recompile = true ∧
        ¬(0 < (if is_optimized then args.bucket_size else -1))) := by
  unfold setup_generation_config
  dsimp only
  by_cases h : args.reduce_recompile = true ∧
      ¬(0 < (if is_optimized then args.bucket_size else (-1 : Int)))
  · rw [if_pos h]
    simp [h]
  · rw [if_neg h]
    simp
    tauto

/-- C6 counterexample: with the default `Args` and an all-zero environment,
`initialize_model` flips `limit_hpu_graphs` from `True` to `False`, a field
that is not one of the environment-derived trio. -/
theorem initialize_model_args_changes_limit_hpu_graphs :
    Args.defaults.limit_hpu_graphs = true ∧
      (initialize_model_args ⟨0, 0, 0⟩ Args.defaults).limit_hpu_graphs = false := by
  constructor
  · rfl
  · decide

/-- C6 amended: `initialize_model` writes only the environment-derived fields
`local_rank`, `world_size`, `global_rank`, plus possibly `limit_hpu_graphs`
(forced off when `exclude_hpu_graph_configs` applies) and `attn_softmax_bf16`
(forced off when running without deepspeed and without bf16); every other
`Args` field is unchanged. -/
theorem initialize_model_args_frame (env : Env) (args : Args) :
    (initialize_model_args env args).device = args.device ∧
    (initialize_model_args env args).model_name_or_path = args.model_name_or_path ∧
    (initialize_model_args env args).bf16 = args.bf16 ∧
    (initialize_model_args env args).max_new_tokens = args.max_new_tokens ∧
    (initialize_model_args env args).max_input_tokens = args.max_input_tokens ∧
    (initialize_model_args env args).batch_size = args.batch_size ∧
    (initialize_model_args env args).warmup = args.warmup ∧
    (initialize_model_args env args).n_iterations = args.n_iterations ∧
    (initialize_model_args env args).reuse_cache = args.reuse_cache ∧
    (initialize_model_args env args).use_kv_cache = args.use_kv_cache ∧
    (initialize_model_args env args).use_hpu_graphs = args.use_hpu_graphs ∧
    (initialize_model_args env args).do_sample = args.do_sample ∧
    (initialize_model_args env args).torch_compile = args.torch_compile ∧
    (initialize_model_args env args).bucket_internal = args.bucket_internal ∧
    (initialize_model_args env args).bucket_size = args.bucket_size ∧
    (initialize_model_args env args).trust_remote_code = args.trust_remote_code ∧
    (initialize_model_args env args).num_beams = args.num_beams ∧
    (initialize_model_args env args).bad_words = args.bad_words ∧
    (initialize_model_args env args).force_words = args.force_words ∧
    (initialize_model_args env args).token = args.token ∧
    (initialize_model_args env args).top_k = args.top_k ∧
    (initialize_model_args env args).num_return_sequences = args.num_return_sequences ∧
    (initialize_model_args env args).trim_logits = args.trim_logits ∧
    (initialize_model_args env args).penalty_alpha = args.penalty_alpha ∧
    (initialize_model_args env args).reduce_recompile = args.reduce_recompile ∧
    (initialize_model_args env args).use_flash_attention = args.use_flash_attention ∧
    (initialize_model_args env args).flash_attention_recompute = args.flash_attention_recompute ∧
    (initialize_model_args env args).flash_attention_causal_mask = args.flash_attention_causal_mask ∧
    (initialize_model_args env args).flash_attention_fast_softmax = args.flash_attention_fast_softmax ∧
    (initialize_model_args env args).model_revision = args.model_revision ∧
    (initialize_model_args env args).buckets = args.buckets := by
  unfold initialize_model_args setup_distributed
  dsimp only
  split <;> split <;> simp

/-- The exclusion predicate, spelled out. -/
theorem exclude_hpu_graph_configs_iff (a : Args) :
    exclude_hpu_graph_configs a = true ↔
      (a.batch_size = 1 ∧ a.limit_hpu_graphs = true ∧
        ¬(str_contains a.model_name_or_path "falcon-180B" = true ∨
          str_contains a.model_name_or_path "falcon-180b" = true) ∧
        ¬((a.world_size = 2 ∨ a.world_size = 4 ∨ a.world_size = 8) ∧
          4096 ≤ a.max_input_tokens ∧ 128 ≤ a.max_new_tokens)) := by
  unfold exclude_hpu_graph_configs
  split
  case isTrue h1 =>
    split
    case isTrue h2 => simp [h1, h2]
    case isFalse h2 =>
      split
      case isTrue h3 => simp [h1, h2, h3]
      case isFalse h3 => simp [h1, h2, h3]
  case isFalse h1 => simp [h1]; tauto

/-- The `limit_hpu_graphs` field after `initialize_model`, as a function of
the exclusion check (no later step writes it). -/
theorem initialize_model_args_limit_eq (env : Env) (args : Args) :
    (initialize_model_args env args).limit_hpu_graphs =
      if exclude_hpu_graph_configs (setup_distributed env args) = true then false
      else args.limit_hpu_graphs := by
  by_cases hex : exclude_hpu_graph_configs (setup_distributed env args) = true
  · rw [if_pos hex]
    unfold initialize_model_args
    simp only [hex, eq_self_iff_true, if_true]
    simp [apply_ite Args.limit_hpu_graphs]
  · rw [if_neg hex]
    unfold initialize_model_args
    simp only [hex, if_false]
    simp [apply_ite Args.limit_hpu_graphs, setup_distributed]

/-- C10: `initialize_model` forces `limit_hpu_graphs` to `False` exactly when
the batch size is 1 and the flag is set, unless the model name contains
`falcon-180B`/`falcon-180b` or the (environment-derived) world size is 2, 4
or 8 with at least 4096 input tokens and 128 new tokens; in every other
configuration the flag is left as supplied. -/
theorem initialize_model_args_limit_hpu_graphs (env : Env) (args : Args) :
    (initialize_model_args env args).limit_hpu_graphs =
      if args.batch_size = 1 ∧ args.limit_hpu_graphs = true ∧
          ¬(str_contains args.model_name_or_path "falcon-180B" = true ∨
            str_contains args.model_name_or_path "falcon-180b" = true) ∧
          ¬((env.world_size = 2 ∨ env.world_size = 4 ∨ env.world_size = 8) ∧
            4096 ≤ args.max_input_tokens ∧ 128 ≤ args.max_new_tokens)
      then false else args.limit_hpu_graphs := by
  have hiff : exclude_hpu_graph_configs (setup_distributed env args) = true ↔
      (args.batch_size = 1 ∧ args.limit_hpu_graphs = true ∧
        ¬(str_contains args.model_name_or_path "falcon-180B" = true ∨
          str_contains args.model_name_or_path "falcon-180b" = true) ∧
        ¬((env.world_size = 2 ∨ env.world_size = 4 ∨ env.world_size = 8) ∧
          4096 ≤ args.max_input_tokens ∧ 128 ≤ args.max_new_tokens)) :=
    exclude_hpu_graph_configs_iff (setup_distributed env args)
  rw [initialize_model_args_limit_eq]
  by_cases hc : args.batch_size = 1 ∧ args.limit_hpu_graphs = true ∧
      ¬(str_contains args.model_name_or_path "falcon-180B" = true ∨
        str_contains args.model_name_or_path "falcon-180b" = true) ∧
      ¬((env.world_size = 2 ∨ env.world_size = 4 ∨ env.world_size = 8) ∧
        4096 ≤ args.max_input_tokens ∧ 128 ≤ args.max_new_tokens)
  · rw [if_pos hc, if_pos (hiff.mpr hc)]
  · rw [if_neg hc, if_neg (fun h => hc (hiff.mp h))]

end OptimumHabana
